import Mathlib

/-!
Shallow embedding of `mms/mms.go` (package `mms` of doflah/nuntium).

Go `byte` and `uint64` fields are modelled as `Nat` (every value the code
manipulates is a literal below 2^8 resp. 2^64, and no arithmetic overflows),
`string` as `String`, `bool` as `Bool`.  The entropy source used by `genUUID`
is made an explicit argument, and the in-place rewrite of the caller's
recipient slice performed by `NewMSendReq` is modelled by returning the
rewritten list next to the constructed PDU.
-/

-- MMS Content Type Assignments OMA-WAP-MMS section 7.3 Table 13
def VND_WAP_MMS_MESSAGE : String := "application/vnd.wap.mms-message"

def TYPE_SEND_REQ : Nat := 0x80
def TYPE_SEND_CONF : Nat := 0x81
def TYPE_NOTIFICATION_IND : Nat := 0x82
def TYPE_NOTIFYRESP_IND : Nat := 0x83
def TYPE_RETRIEVE_CONF : Nat := 0x84
def TYPE_ACKNOWLEDGE_IND : Nat := 0x85
def TYPE_DELIVERY_IND : Nat := 0x86

def MMS_MESSAGE_VERSION_1_0 : Nat := 0x90
def MMS_MESSAGE_VERSION_1_1 : Nat := 0x91
def MMS_MESSAGE_VERSION_1_2 : Nat := 0x92
def MMS_MESSAGE_VERSION_1_3 : Nat := 0x93

-- Response Status defined in OMA-WAP-MMS section 7.2.27
def ResponseStatusOk : Nat := 128
def ResponseStatusErrorUnspecified : Nat := 129
def ResponseStatusErrorServiceDenied : Nat := 130
def ResponseStatusErrorMessageFormatCorrupt : Nat := 131
def ResponseStatusErrorSendingAddressUnresolved : Nat := 132
def ResponseStatusErrorMessageNotFound : Nat := 133
def ResponseStatusErrorNetworkProblem : Nat := 134
def ResponseStatusErrorContentNotAccepted : Nat := 135
def ResponseStatusErrorUnsupportedMessage : Nat := 136

def ResponseStatusErrorTransientFailure : Nat := 192
def ResponseStatusErrorTransientAddressUnresolved : Nat := 193
def ResponseStatusErrorTransientMessageNotFound : Nat := 194
def ResponseStatusErrorTransientNetworkProblem : Nat := 195
def ResponseStatusErrorTransientMaxReserved : Nat := 223

def ResponseStatusErrorPermanentFailure : Nat := 224
def ResponseStatusErrorPermamentMaxReserved : Nat := 255

-- Status defined in OMA-WAP-MMS section 7.2.23
def STATUS_EXPIRED : Nat := 128
def STATUS_RETRIEVED : Nat := 129
def STATUS_REJECTED : Nat := 130
def STATUS_DEFERRED : Nat := 131
def STATUS_UNRECOGNIZED : Nat := 132

/-- Modelled from the spec: the attachment type (body-composition collaborator)
is referenced by `mms.go` but defined in a file not present under `src/`; the
factory "attaches the given attachment list without inspecting it", so its
contents are opaque payload bytes. -/
structure Attachment where
  data : List Nat
deriving Repr, DecidableEq

/-- `MSendReq` holds a m-send.req message (OMA-WAP-MMS-ENC-v1.1 section 6.1.1).
The Go field `Type` is rendered `type_` because `Type` is reserved in Lean. -/
structure MSendReq where
  UUID : String
  type_ : Nat
  TransactionId : String
  Version : Nat
  Date : Nat
  From : String
  To : String
  Cc : String
  Bcc : String
  Subject : String
  Class : Nat
  Expiry : Nat
  DeliveryTime : Nat
  Priority : Nat
  SenderVisibility : Nat
  DeliveryReport : Nat
  ReadReply : Nat
  ContentType : String
  Attachments : List Attachment
deriving Repr, DecidableEq

/-- `MSendConf` holds a m-send.conf message (OMA-WAP-MMS-ENC section 6.1.2). -/
structure MSendConf where
  type_ : Nat
  TransactionId : String
  Version : Nat
  ResponseStatus : Nat
  ResponseText : String
  MessageId : String
deriving Repr, DecidableEq

/-- `MNotificationInd` holds a m-notification.ind message
(OMA-WAP-MMS-ENC section 6.2).  The embedded `MMSReader` interface value
carries no data and is omitted. -/
structure MNotificationInd where
  UUID : String
  type_ : Nat
  Version : Nat
  Class : Nat
  DeliveryReport : Nat
  ReplyCharging : Nat
  ReplyChargingDeadline : Nat
  ReplyChargingId : String
  TransactionId : String
  ContentLocation : String
  From : String
  Subject : String
  Expiry : Nat
  Size : Nat
deriving Repr, DecidableEq

/-- `MNotifyRespInd` holds a m-notifyresp.ind message
(OMA-WAP-MMS-ENC-v1.1 section 6.2). -/
structure MNotifyRespInd where
  UUID : String
  type_ : Nat
  TransactionId : String
  Version : Nat
  Status : Nat
  ReportAllowed : Bool
deriving Repr, DecidableEq

/-- `MRetrieveConf` holds a m-retrieve.conf message
(OMA-WAP-MMS-ENC-v1.1 section 6.3). -/
structure MRetrieveConf where
  UUID : String
  type_ : Nat
  Version : Nat
  Status : Nat
  Class : Nat
  Priority : Nat
  ReplyCharging : Nat
  ReplyChargingDeadline : Nat
  ReplyChargingId : String
  ReadReport : Nat
  RetrieveStatus : Nat
  DeliveryReport : Nat
  TransactionId : String
  MessageId : String
  RetrieveText : String
  From : String
  Cc : String
  Subject : String
  To : String
  ReportAllowed : Bool
  Date : Nat
  Content : Attachment
  Attachments : List Attachment
  Data : List Nat
deriving Repr, DecidableEq

/-- Outcome of the entropy-source interaction inside `genUUID`: either
`os.Open("/dev/urandom")` fails, or it succeeds and `random.Read(b)` delivers
some (possibly empty, on a read error) list of bytes into the 16-byte buffer;
the code inspects neither the read count nor the read error. -/
inductive EntropySource where
  | openFail : EntropySource
  | opened : List Nat → EntropySource
deriving Repr, DecidableEq

/-- Lowercase hex digit, as produced by Go's `%x` verb. -/
def hexDigit (n : Nat) : Char :=
  if n < 10 then Char.ofNat (48 + n) else Char.ofNat (87 + n)

/-- Two lowercase hex characters of one byte. -/
def hexByte (n : Nat) : List Char :=
  [hexDigit ((n % 256) / 16), hexDigit (n % 16)]

/-- `fmt.Sprintf("%x", b)` on a byte slice: each byte as two lowercase hex
characters, concatenated. -/
def hexEncode (bs : List Nat) : String :=
  String.mk ((bs.map hexByte).flatten)

/-- The contents of `b := make([]byte, 16)` after `random.Read(b)` delivered
the bytes `bs`: the delivered prefix (at most 16 bytes), the rest still zero. -/
def buffer16 (bs : List Nat) : List Nat :=
  bs.take 16 ++ List.replicate (16 - bs.length) 0

/-- `genUUID`: on open failure the fixed literal, otherwise the hex encoding
of the 16-byte buffer.  The single read's error is discarded by the code. -/
def genUUID : EntropySource → String
  | EntropySource.openFail => "1234567890ABCDEF"
  | EntropySource.opened bs => hexEncode (buffer16 bs)

/-- `NewMSendReq`: rewrites every recipient in place by appending
`"/TYPE=PLMN"`, draws one uuid used both as `UUID` and `TransactionId`, and
builds the PDU.  The first component of the result is the caller's recipient
slice after the in-place rewrite; fields absent from the Go composite literal
hold their Go zero value. -/
def NewMSendReq (recipients : List String) (attachments : List Attachment)
    (src : EntropySource) : List String × MSendReq :=
  let recipients := recipients.map (fun r => r ++ "/TYPE=PLMN")
  let uuid := genUUID src
  (recipients,
   { type_ := TYPE_SEND_REQ
     To := String.intercalate "," recipients
     TransactionId := uuid
     Version := MMS_MESSAGE_VERSION_1_3
     UUID := uuid
     ContentType := "application/vnd.wap.multipart.related"
     Attachments := attachments
     Date := 0
     From := ""
     Cc := ""
     Bcc := ""
     Subject := ""
     Class := 0
     Expiry := 0
     DeliveryTime := 0
     Priority := 0
     SenderVisibility := 0
     DeliveryReport := 0
     ReadReply := 0 })

/-- `NewMSendConf`: only the wire type is set. -/
def NewMSendConf : MSendConf :=
  { type_ := TYPE_SEND_CONF
    TransactionId := ""
    Version := 0
    ResponseStatus := 0
    ResponseText := ""
    MessageId := "" }

/-- `(*MNotificationInd).NewMNotifyRespInd(status, deliveryReport)`. -/
def MNotificationInd.NewMNotifyRespInd (mNotificationInd : MNotificationInd)
    (status : Nat) (deliveryReport : Bool) : MNotifyRespInd :=
  { type_ := TYPE_NOTIFYRESP_IND
    UUID := mNotificationInd.UUID
    TransactionId := mNotificationInd.TransactionId
    Version := mNotificationInd.Version
    Status := status
    ReportAllowed := deliveryReport }

/-- `(*MRetrieveConf).NewMNotifyRespInd(deliveryReport)`. -/
def MRetrieveConf.NewMNotifyRespInd (mRetrieveConf : MRetrieveConf)
    (deliveryReport : Bool) : MNotifyRespInd :=
  { type_ := TYPE_NOTIFYRESP_IND
    UUID := mRetrieveConf.UUID
    TransactionId := mRetrieveConf.TransactionId
    Version := mRetrieveConf.Version
    Status := STATUS_RETRIEVED
    ReportAllowed := deliveryReport }

/-- Result of `(*MSendConf).Status()`: `nil`, `ErrTransient` or
`ErrPermanent`. -/
inductive StatusResult where
  | ok : StatusResult
  | transient : StatusResult
  | permanent : StatusResult
deriving Repr, DecidableEq

/-- `(*MSendConf).Status()`: the case-by-case switch on the enumerated legacy
codes, then the two grouped reserved ranges, then the fail-safe default. -/
def MSendConf.Status (mSendConf : MSendConf) : StatusResult :=
  let s := mSendConf.ResponseStatus
  if s = ResponseStatusOk then StatusResult.ok
  else if s = ResponseStatusErrorUnspecified then StatusResult.transient
  else if s = ResponseStatusErrorServiceDenied then StatusResult.transient
  else if s = ResponseStatusErrorMessageFormatCorrupt then StatusResult.permanent
  else if s = ResponseStatusErrorSendingAddressUnresolved then StatusResult.permanent
  -- this could be ErrTransient or ErrPermanent
  else if s = ResponseStatusErrorMessageNotFound then StatusResult.permanent
  else if s = ResponseStatusErrorNetworkProblem then StatusResult.transient
  else if s = ResponseStatusErrorContentNotAccepted then StatusResult.permanent
  else if s = ResponseStatusErrorUnsupportedMessage then StatusResult.permanent
  else if ResponseStatusErrorTransientFailure ≤ s ∧ s ≤ ResponseStatusErrorTransientMaxReserved
    then StatusResult.transient
  else if ResponseStatusErrorPermanentFailure ≤ s ∧ s ≤ ResponseStatusErrorPermamentMaxReserved
    then StatusResult.permanent
  -- any case not handled is a permanent error
  else StatusResult.permanent

/-- Per-field encoding directive, as carried by the Go struct tags:
`encode:"no"` is `excluded`, `encode:"optional"` is `optional`, and a field
with no tag is encoded unconditionally (`always`). -/
inductive Directive where
  | always : Directive
  | optional : Directive
  | excluded : Directive
deriving Repr, DecidableEq

/-- The (field, directive) table of `MSendReq`, transcribed tag by tag. -/
def mSendReqDirectives : List (String × Directive) :=
  [("UUID", Directive.excluded),
   ("Type", Directive.always),
   ("TransactionId", Directive.always),
   ("Version", Directive.always),
   ("Date", Directive.optional),
   ("From", Directive.always),
   ("To", Directive.always),
   ("Cc", Directive.excluded),
   ("Bcc", Directive.excluded),
   ("Subject", Directive.optional),
   ("Class", Directive.optional),
   ("Expiry", Directive.optional),
   ("DeliveryTime", Directive.optional),
   ("Priority", Directive.optional),
   ("SenderVisibility", Directive.optional),
   ("DeliveryReport", Directive.optional),
   ("ReadReply", Directive.optional),
   ("ContentType", Directive.always),
   ("Attachments", Directive.excluded)]

/-- The (field, directive) table of `MNotifyRespInd`, transcribed tag by tag. -/
def mNotifyRespIndDirectives : List (String × Directive) :=
  [("UUID", Directive.excluded),
   ("Type", Directive.always),
   ("TransactionId", Directive.always),
   ("Version", Directive.always),
   ("Status", Directive.always),
   ("ReportAllowed", Directive.always)]

/-- The (field, directive) table of `MNotificationInd`: none of its fields
carries an `encode` tag in the source. -/
def mNotificationIndDirectives : List (String × Directive) :=
  [("UUID", Directive.always),
   ("Type", Directive.always),
   ("Version", Directive.always),
   ("Class", Directive.always),
   ("DeliveryReport", Directive.always),
   ("ReplyCharging", Directive.always),
   ("ReplyChargingDeadline", Directive.always),
   ("ReplyChargingId", Directive.always),
   ("TransactionId", Directive.always),
   ("ContentLocation", Directive.always),
   ("From", Directive.always),
   ("Subject", Directive.always),
   ("Expiry", Directive.always),
   ("Size", Directive.always)]

/-- Directive of a named field in a table. -/
def directiveOf (table : List (String × Directive)) (field : String) :
    Option Directive :=
  List.lookup field table

/-- A `SendConfirmation` with a given response status byte and everything
else at its zero value (used to state the classifier claims). -/
def confWith (s : Nat) : MSendConf :=
  { NewMSendConf with ResponseStatus := s }

/-! ## Helper lemmas -/

lemma hexEncode_length (bs : List Nat) : (hexEncode bs).length = 2 * bs.length := by
  show ((bs.map hexByte).flatten).length = 2 * bs.length
  induction bs with
  | nil => rfl
  | cons a t ih =>
    simp only [List.map_cons, List.flatten_cons, List.length_append, ih, hexByte,
      List.length_cons, List.length_nil]
    omega

lemma buffer16_length (bs : List Nat) : (buffer16 bs).length = 16 := by
  simp only [buffer16, List.length_append, List.length_take, List.length_replicate]
  omega

lemma genUUID_opened_length (bs : List Nat) :
    (genUUID (EntropySource.opened bs)).length = 32 := by
  show (hexEncode (buffer16 bs)).length = 32
  rw [hexEncode_length, buffer16_length]

lemma genUUID_ne_empty (src : EntropySource) : genUUID src ≠ "" := by
  cases src with
  | openFail => decide
  | opened bs =>
    intro h
    have h32 := genUUID_opened_length bs
    rw [h] at h32
    exact absurd h32 (by decide)

/-! ## Claim theorems -/

set_option maxRecDepth 4000 in
/-- C1: for every status byte s, `Status()` on a `MSendConf` with response
status s returns Ok when s = 128, Transient when s is in [192,223], Permanent
when s is in [224,255], and Permanent on every byte of [0,127] and [137,191]. -/
theorem mSendConf_status_reserved_ranges :
    ∀ s : Nat, s < 256 →
      ((s = 128 → (confWith s).Status = StatusResult.ok) ∧
       (192 ≤ s ∧ s ≤ 223 → (confWith s).Status = StatusResult.transient) ∧
       (224 ≤ s ∧ s ≤ 255 → (confWith s).Status = StatusResult.permanent) ∧
       (s ≤ 127 ∨ (137 ≤ s ∧ s ≤ 191) → (confWith s).Status = StatusResult.permanent)) := by
  decide

/-- Witness for C1, at the transient-range byte 200. -/
theorem mSendConf_status_reserved_ranges_witness :
    (confWith 200).Status = StatusResult.transient :=
  (mSendConf_status_reserved_ranges 200 (by decide)).2.1 (by decide)

/-- C2: each enumerated legacy code 129-136 classifies per the fixed table:
129, 130 and 134 map to Transient; 131, 132, 133, 135 and 136 to Permanent. -/
theorem mSendConf_status_legacy_codes :
    (confWith 129).Status = StatusResult.transient ∧
    (confWith 130).Status = StatusResult.transient ∧
    (confWith 134).Status = StatusResult.transient ∧
    (confWith 131).Status = StatusResult.permanent ∧
    (confWith 132).Status = StatusResult.permanent ∧
    (confWith 133).Status = StatusResult.permanent ∧
    (confWith 135).Status = StatusResult.permanent ∧
    (confWith 136).Status = StatusResult.permanent := by
  decide

/-- C3: deriving a `MNotifyRespInd` from a `MNotificationInd` with (s, r)
copies UUID, transaction id and version, and sets status s and
report-allowed flag r. -/
theorem mNotificationInd_newMNotifyRespInd_spec :
    ∀ (n : MNotificationInd) (s : Nat) (r : Bool),
      (n.NewMNotifyRespInd s r).UUID = n.UUID ∧
      (n.NewMNotifyRespInd s r).TransactionId = n.TransactionId ∧
      (n.NewMNotifyRespInd s r).Version = n.Version ∧
      (n.NewMNotifyRespInd s r).Status = s ∧
      (n.NewMNotifyRespInd s r).ReportAllowed = r :=
  fun _ _ _ => ⟨rfl, rfl, rfl, rfl, rfl⟩

/-- C4: deriving a `MNotifyRespInd` from any `MRetrieveConf` fixes the status
to the token `STATUS_RETRIEVED` regardless of the confirmation's contents,
while copying UUID, transaction id and version. -/
theorem mRetrieveConf_newMNotifyRespInd_spec :
    ∀ (c : MRetrieveConf) (r : Bool),
      (c.NewMNotifyRespInd r).Status = STATUS_RETRIEVED ∧
      (c.NewMNotifyRespInd r).UUID = c.UUID ∧
      (c.NewMNotifyRespInd r).TransactionId = c.TransactionId ∧
      (c.NewMNotifyRespInd r).Version = c.Version ∧
      (c.NewMNotifyRespInd r).ReportAllowed = r :=
  fun _ _ => ⟨rfl, rfl, rfl, rfl, rfl⟩

/-- C5: `NewMSendReq` appends "/TYPE=PLMN" to each recipient and comma-joins
them in order into the To field; the PDU's transaction id equals its UUID and
both are non-empty, the version is 1.3 and the content type is the
multipart-related media type. -/
theorem newMSendReq_spec :
    ∀ (recipients : List String) (attachments : List Attachment) (src : EntropySource),
      (NewMSendReq recipients attachments src).2.To =
        String.intercalate "," (recipients.map (fun r => r ++ "/TYPE=PLMN")) ∧
      (NewMSendReq recipients attachments src).2.TransactionId =
        (NewMSendReq recipients attachments src).2.UUID ∧
      (NewMSendReq recipients attachments src).2.UUID ≠ "" ∧
      (NewMSendReq recipients attachments src).2.Version = MMS_MESSAGE_VERSION_1_3 ∧
      (NewMSendReq recipients attachments src).2.ContentType =
        "application/vnd.wap.multipart.related" := by
  intro recipients attachments src
  exact ⟨rfl, rfl, genUUID_ne_empty src, rfl, rfl⟩

/-- C6 counterexample: `NewMSendReq` called with the empty recipient list is
not rejected; it constructs a `MSendReq` (wire type set, To empty, transaction
id drawn) — there is no error result in its signature. -/
theorem newMSendReq_empty_constructs :
    (NewMSendReq [] [] EntropySource.openFail).2.type_ = TYPE_SEND_REQ ∧
    (NewMSendReq [] [] EntropySource.openFail).2.To = "" ∧
    (NewMSendReq [] [] EntropySource.openFail).2.TransactionId = "1234567890ABCDEF" :=
  ⟨rfl, rfl, rfl⟩

/-- C6 amended: `NewMSendReq` performs no validation of the recipient list:
given the empty list it constructs a `MSendReq` normally, with an empty To
field, the generated transaction id and the given attachments. -/
theorem newMSendReq_empty_no_rejection :
    ∀ (attachments : List Attachment) (src : EntropySource),
      (NewMSendReq [] attachments src).2.type_ = TYPE_SEND_REQ ∧
      (NewMSendReq [] attachments src).2.To = "" ∧
      (NewMSendReq [] attachments src).2.TransactionId = genUUID src ∧
      (NewMSendReq [] attachments src).2.Attachments = attachments :=
  fun _ _ => ⟨rfl, rfl, rfl, rfl⟩

/-- C7 counterexample: a failed read (source opened, zero bytes delivered)
does not return the fixed open-failure literal: it hex-encodes the untouched
zero buffer instead. -/
theorem genUUID_read_failure_not_fallback :
    genUUID (EntropySource.opened []) = "00000000000000000000000000000000" ∧
    genUUID EntropySource.openFail = "1234567890ABCDEF" ∧
    genUUID (EntropySource.opened []) ≠ genUUID EntropySource.openFail := by
  refine ⟨by decide, rfl, by decide⟩

/-- C7 amended: `genUUID` makes a single attempt; only a failure to open the
entropy source returns the fixed literal "1234567890ABCDEF"; a read error is
ignored, the 16-byte buffer (zero where the read delivered nothing) is
hex-encoded to a 32-character string (e.g. a single delivered byte 0xab yields
"ab" followed by thirty zeros). -/
theorem genUUID_spec_amended :
    ∀ bs : List Nat,
      genUUID EntropySource.openFail = "1234567890ABCDEF" ∧
      (genUUID (EntropySource.opened bs)).length = 32 ∧
      genUUID (EntropySource.opened [0xab]) = "ab000000000000000000000000000000" := by
  intro bs
  exact ⟨rfl, genUUID_opened_length bs, by decide⟩

/-- C8 counterexample: the local correlation id field of `MNotificationInd`
carries no `encode` tag in the source, so its directive is `always`, not
`excluded`. -/
theorem mNotificationInd_uuid_not_excluded :
    directiveOf mNotificationIndDirectives "UUID" = some Directive.always ∧
    directiveOf mNotificationIndDirectives "UUID" ≠ some Directive.excluded := by
  exact ⟨by decide, by decide⟩

/-- C8 amended: the excluded-from-encoding directive is carried by UUID, Cc,
Bcc and Attachments on `MSendReq` and by UUID on `MNotifyRespInd`; on
`MNotificationInd` the UUID field carries no encode directive and defaults to
unconditional encoding. -/
theorem excluded_directive_table :
    directiveOf mSendReqDirectives "UUID" = some Directive.excluded ∧
    directiveOf mSendReqDirectives "Cc" = some Directive.excluded ∧
    directiveOf mSendReqDirectives "Bcc" = some Directive.excluded ∧
    directiveOf mSendReqDirectives "Attachments" = some Directive.excluded ∧
    directiveOf mNotifyRespIndDirectives "UUID" = some Directive.excluded ∧
    directiveOf mNotificationIndDirectives "UUID" = some Directive.always := by
  decide

/-- C9: `Status()` is a pure function of the response status byte alone: two
confirmations agreeing on `ResponseStatus` classify identically, whatever
their transaction id, version, response text and message id. -/
theorem mSendConf_status_pure :
    ∀ c₁ c₂ : MSendConf, c₁.ResponseStatus = c₂.ResponseStatus →
      c₁.Status = c₂.Status := by
  intro c₁ c₂ h
  simp only [MSendConf.Status, h]

/-- Witness for C9: two confirmations differing in every other field classify
identically. -/
theorem mSendConf_status_pure_witness :
    ({ type_ := TYPE_SEND_CONF, TransactionId := "t1", Version := 0x90,
       ResponseStatus := 128, ResponseText := "a", MessageId := "m1" } : MSendConf).Status =
    ({ type_ := 0, TransactionId := "t2", Version := 0x93,
       ResponseStatus := 128, ResponseText := "b", MessageId := "m2" } : MSendConf).Status :=
  mSendConf_status_pure _ _ rfl

/-- C10: `NewMSendReq` rewrites the caller's recipient list in place — after
the call, entry i is the original entry i with "/TYPE=PLMN" appended — and the
attachment list reaches the PDU unmodified. -/
theorem newMSendReq_mutation_frame :
    ∀ (recipients : List String) (attachments : List Attachment) (src : EntropySource),
      (NewMSendReq recipients attachments src).1 =
        recipients.map (fun r => r ++ "/TYPE=PLMN") ∧
      (∀ i : Nat, ((NewMSendReq recipients attachments src).1)[i]? =
        (recipients[i]?).map (fun r => r ++ "/TYPE=PLMN")) ∧
      (NewMSendReq recipients attachments src).2.Attachments = attachments := by
  intro recipients attachments src
  refine ⟨rfl, ?_, rfl⟩
  intro i
  show (recipients.map (fun r => r ++ "/TYPE=PLMN"))[i]? = _
  exact List.getElem?_map _ recipients i
